import Mathlib

/-!
Verification development for ClassicJSMinus (src/cjsminus.js).

The module is shallowly embedded: JavaScript property keys, values and
thrown errors become inductive types; each relevant function of the source
becomes an executable Lean definition that mirrors its control flow
statement by statement.  Thrown JS errors are modelled with `Except`;
every distinct throw site of the source gets its own `JSErr` constructor,
and `JSErr.kind` recovers the JS error class (TypeError / SyntaxError /
ReferenceError).  Objects are modelled as association lists of
(key, value) pairs in property-insertion order; reference identity and
in-place mutation are modelled by explicit functional update of the
association list that the code observably produces.  JS numbers are
modelled as integers (NaN and non-integral floats play no role in any
claim).  Several identifiers used by the source are declared nowhere in
the file (proxyMap, stack, TARGET, PVT_DATA, Obj, Classic, useStrings,
TRIGGER, and the bare `prototype` inside `disconnect`); evaluating such an
identifier in JS throws a ReferenceError, modelled by
`JSErr.unboundIdentifier`.
-/

/-- Property keys: plain strings or symbols.  Symbols are identified by a
number; the module mints one symbol per constant of its vocabulary. -/
inductive JSKey where
  | str (s : String)
  | sym (n : Nat)
deriving DecidableEq, Repr

/-- JavaScript values, as far as the module observes them. -/
inductive JSVal where
  | vUndefined
  | vNull
  | vBool (b : Bool)
  | vNum (n : Int)
  | vStr (s : String)
  | vSym (n : Nat)
  | vFun (id : Nat)
  | vObj (props : List (JSKey × JSVal))
deriving Repr

/-- The vocabulary symbols (AccessLevels / ClassConfigKeys of the source,
lines 65-75).  `ClassicM.STATIC` etc. resolve to these tokens. -/
def STATIC : JSKey := .sym 0

/-- Token for the private region (AccessLevels.Private). -/
def PRIVATE : JSKey := .sym 1

/-- Token for the protected region (AccessLevels.Protected). -/
def PROTECTED : JSKey := .sym 2

/-- Token for the public region (AccessLevels.Public). -/
def PUBLIC : JSKey := .sym 3

/-- Token for the class-name configuration key (ClassConfigKeys.ClassName). -/
def CLASSNAME : JSKey := .sym 4

/-- Token for the inherit-mode configuration key (ClassConfigKeys.InheritMode). -/
def INHERITMODE : JSKey := .sym 5

/-- The value ClassicM.ABSTRACT (ClassConstants.ABSTRACT, line 79). -/
def ABSTRACTV : JSVal := .vSym 6

/-- The value ClassicM.FINAL (ClassConstants.FINAL, line 80). -/
def FINALV : JSVal := .vSym 7

/-- The module-level PLACEHOLDER symbol (line 83), as a property key. -/
def PLACEHOLDER_KEY : JSKey := .sym 10

/-- Errors, one constructor per throw site the embedding can reach. -/
inductive JSErr where
  | dupKey (k : JSKey)            -- SyntaxError, cjsminus.js line 215
  | regionNotObject (k : JSKey)   -- TypeError thrown at lines 231 / 248 (shape check)
  | toObjectOnNullish             -- TypeError from Object.getOwnPropertyNames(null or undefined), line 96
  | invalidArgument               -- TypeError, line 404
  | badDataParam                  -- TypeError, line 412
  | cannotExtendFinal             -- TypeError, line 421
  | inaccessible                  -- TypeError, line 273
  | evalSynErr                    -- SyntaxError: eval of the program "()" at line 431
  | dupBinding (n : String)       -- early SyntaxError: duplicate declaration in one scope
  | notAConstructor (n : String)  -- TypeError: `new` applied to a non-constructor
  | initNeedsFunction             -- TypeError, line 585
  | unboundIdentifier (n : String) -- ReferenceError: identifier declared nowhere in the file
deriving DecidableEq, Repr

/-- The JS error class of each modelled error. -/
inductive ErrKind where
  | typeErr
  | synErr
  | refErr
deriving DecidableEq, BEq, Repr

/-- Maps each modelled throw to its JS error class. -/
def JSErr.kind : JSErr → ErrKind
  | .dupKey _ => .synErr
  | .regionNotObject _ => .typeErr
  | .toObjectOnNullish => .typeErr
  | .invalidArgument => .typeErr
  | .badDataParam => .typeErr
  | .cannotExtendFinal => .typeErr
  | .inaccessible => .typeErr
  | .evalSynErr => .synErr
  | .dupBinding _ => .synErr
  | .notAConstructor _ => .typeErr
  | .initNeedsFunction => .typeErr
  | .unboundIdentifier _ => .refErr

/-- Boolean success test for the `Except` results of the embedding. -/
def exceptOk {ε α : Type} : Except ε α → Bool
  | .ok _ => true
  | .error _ => false

/-- JS truthiness of a value (NaN is not modelled; no claim involves it). -/
def truthy : JSVal → Bool
  | .vUndefined => false
  | .vNull => false
  | .vBool b => b
  | .vNum n => n != 0
  | .vStr s => s != ""
  | .vSym _ => true
  | .vFun _ => true
  | .vObj _ => true

/-- Whether `typeof v === "object"` (true for null and for objects). -/
def typeofObject : JSVal → Bool
  | .vNull => true
  | .vObj _ => true
  | _ => false

/-- Whether the value is an actual object (not null). -/
def isObj : JSVal → Bool
  | .vObj _ => true
  | _ => false

/-- Whether the value is null. -/
def isNullV : JSVal → Bool
  | .vNull => true
  | _ => false

/-- Whether the value is undefined. -/
def isUndefinedVal : JSVal → Bool
  | .vUndefined => true
  | _ => false

/-- Whether the value is null or undefined (the `[null, void 0].includes(id)`
test of line 300). -/
def isNullOrUndefined : JSVal → Bool
  | .vNull => true
  | .vUndefined => true
  | _ => false

/-- Own-property lookup on an association list (first binding wins; a real
JS object never holds the same key twice). -/
def getOwn : List (JSKey × JSVal) → JSKey → Option JSVal
  | [], _ => none
  | (k', v) :: ps, k => if k' = k then some v else getOwn ps k

/-- Property read defaulted to undefined, as `obj[k]` behaves for own
properties of plain literal objects. -/
def getOwnD (ps : List (JSKey × JSVal)) (k : JSKey) : JSVal :=
  (getOwn ps k).getD .vUndefined

/-- The `hasOwnProperty` test. -/
def hasOwn (ps : List (JSKey × JSVal)) (k : JSKey) : Bool :=
  (getOwn ps k).isSome

/-- Property assignment `obj[k] = v`: overwrites in place, else appends,
matching JS property-order semantics. -/
def setProp : List (JSKey × JSVal) → JSKey → JSVal → List (JSKey × JSVal)
  | [], k, v => [(k, v)]
  | (k', w) :: ps, k, v => if k' = k then (k, v) :: ps else (k', w) :: setProp ps k v

/-- Whether a key is a string key. -/
def isStrKey : JSKey → Bool
  | .str _ => true
  | .sym _ => false

/-- Own keys of an object in the order getAllKeys (lines 95-99) yields
them: Object.getOwnPropertyNames first, then Object.getOwnPropertySymbols. -/
def objKeys (ps : List (JSKey × JSVal)) : List JSKey :=
  ((ps.map Prod.fst).filter isStrKey) ++ ((ps.map Prod.fst).filter (fun k => !(isStrKey k)))

/-- Own string keys of a primitive string: its indices and "length". -/
def stringKeys (s : String) : List JSKey :=
  ((List.range s.length).map (fun i => .str (toString i))) ++ [.str "length"]

/-- The key list produced for a value once ToObject succeeds; primitives
other than strings box to wrapper objects with no own keys. -/
def jsOwnKeyList : JSVal → List JSKey
  | .vObj ps => objKeys ps
  | .vStr s => stringKeys s
  | _ => []

/-- getAllKeys (lines 95-99): Object.getOwnPropertyNames throws a TypeError
when ToObject is applied to null or undefined. -/
def getAllKeys : JSVal → Except JSErr (List JSKey)
  | .vNull => .error .toObjectOnNullish
  | .vUndefined => .error .toObjectOnNullish
  | v => .ok (jsOwnKeyList v)

/-- checkForDuplicates (lines 211-220): walks the keys, throwing a
SyntaxError when a key is already in the shared duplicate set, and adding
it otherwise.  The set is modelled as the list of keys in insertion order. -/
def checkDup (dups : List JSKey) : List JSKey → Except JSErr (List JSKey)
  | [] => .ok dups
  | k :: ks => if k ∈ dups then .error (.dupKey k) else checkDup (dups ++ [k]) ks

/-- The `[ClassicM.ABSTRACT, ClassicM.FINAL, void 0].includes(value)` test
of lines 223-225. -/
def inheritModeAllowed : JSVal → Bool
  | .vSym 6 => true
  | .vSym 7 => true
  | .vUndefined => true
  | _ => false

/-- State threaded through fixupData: the retval object under construction
and the `duplicates` set. -/
structure FixSt where
  retval : List (JSKey × JSVal)
  dups : List JSKey
deriving Repr

/-- The body of the instance-level `a.forEach` callback of fixupData
(lines 227-239) for one visibility-region key `entry`. -/
def processRegion (data : List (JSKey × JSVal)) (st : FixSt) (entry : JSKey) :
    Except JSErr FixSt :=
  if hasOwn data entry then
    if truthy (getOwnD data entry) && !(typeofObject (getOwnD data entry)) then
      .error (.regionNotObject entry)
    else
      match getAllKeys (getOwnD data entry) with
      | .error e => .error e
      | .ok keys =>
        match checkDup st.dups keys with
        | .error e => .error e
        | .ok dups => .ok ⟨setProp st.retval entry (getOwnD data entry), dups⟩
  else
    .ok ⟨setProp st.retval entry .vUndefined, st.dups⟩

/-- The `hasOwnProperty` call of line 245 applied to the raw value
`data[ClassicM.STATIC]` (reachable only with a truthy value). -/
def hasOwnVal : JSVal → JSKey → Bool
  | .vObj ps, k => hasOwn ps k
  | .vStr s, k => (stringKeys s).contains k
  | _, _ => false

/-- Property read on the raw value `data[ClassicM.STATIC]` (line 246). -/
def getPropVal : JSVal → JSKey → JSVal
  | .vObj ps, k => getOwnD ps k
  | .vStr s, k => if k = .str "length" then .vNum s.length else .vUndefined
  | _, _ => .vUndefined

/-- The line 254 assignment `retval[ClassicM.STATIC][entry] = void 0`:
it mutates the object stored under retval's STATIC key (a silent no-op if
that slot does not hold an object). -/
def setStaticSub (rv : List (JSKey × JSVal)) (entry : JSKey) : List (JSKey × JSVal) :=
  match getOwn rv STATIC with
  | some (.vObj ps) => setProp rv STATIC (.vObj (setProp ps entry .vUndefined))
  | _ => rv

/-- The body of the static-level `a.forEach` callback of fixupData
(lines 244-256).  Note line 251 stores the validated static sub-region at
`retval[entry]` — the instance level — while the absent branch (line 254)
stores undefined under `retval[ClassicM.STATIC][entry]`. -/
def processStaticRegion (dataStatic : JSVal) (st : FixSt) (entry : JSKey) :
    Except JSErr FixSt :=
  if truthy dataStatic && hasOwnVal dataStatic entry then
    if truthy (getPropVal dataStatic entry) && !(typeofObject (getPropVal dataStatic entry)) then
      .error (.regionNotObject entry)
    else
      match getAllKeys (getPropVal dataStatic entry) with
      | .error e => .error e
      | .ok keys =>
        match checkDup st.dups keys with
        | .error e => .error e
        | .ok dups => .ok ⟨setProp st.retval entry (getPropVal dataStatic entry), dups⟩
  else
    .ok ⟨setStaticSub st.retval entry, st.dups⟩

/-- The instance-level region loop of fixupData, in the iteration order of
the Set literal at line 208: STATIC, PRIVATE, PROTECTED, PUBLIC. -/
def instancePhase (data : List (JSKey × JSVal)) (st0 : FixSt) : Except JSErr FixSt :=
  match processRegion data st0 STATIC with
  | .error e => .error e
  | .ok st1 =>
    match processRegion data st1 PRIVATE with
    | .error e => .error e
    | .ok st2 =>
      match processRegion data st2 PROTECTED with
      | .error e => .error e
      | .ok st3 => processRegion data st3 PUBLIC

/-- The static-level region loop of fixupData (lines 244-256), after
`a.delete(ClassicM.STATIC)`: PRIVATE, PROTECTED, PUBLIC. -/
def staticPhase (dataStatic : JSVal) (st0 : FixSt) : Except JSErr FixSt :=
  match processStaticRegion dataStatic st0 PRIVATE with
  | .error e => .error e
  | .ok t1 =>
    match processStaticRegion dataStatic t1 PROTECTED with
    | .error e => .error e
    | .ok t2 => processStaticRegion dataStatic t2 PUBLIC

/-- fixupData (lines 206-259).  retval starts as `{ [ClassicM.STATIC]: {} }`;
the class name defaults to "ClassBase"; inherit mode is kept only when it
is ABSTRACT, FINAL or undefined; then the two region loops run, with the
`duplicates` set cleared between them (line 242). -/
def fixupData (data : List (JSKey × JSVal)) : Except JSErr (List (JSKey × JSVal)) :=
  let cn := getOwnD data CLASSNAME
  let im := getOwnD data INHERITMODE
  let retval2 :=
    setProp
      (setProp [(STATIC, JSVal.vObj [])] CLASSNAME
        (if truthy cn then cn else .vStr "ClassBase"))
      INHERITMODE (if inheritModeAllowed im then im else .vUndefined)
  match instancePhase data ⟨retval2, []⟩ with
  | .error e => .error e
  | .ok st4 =>
    if truthy (getOwnD st4.retval STATIC) then
      match staticPhase (getOwnD data STATIC) ⟨st4.retval, []⟩ with
      | .error e => .error e
      | .ok t3 => .ok t3.retval
    else
      .ok st4.retval

/-- validateAccess (lines 261-263): the function body is empty, so every
call returns undefined. -/
def validateAccess (_obj : JSVal) (_depth : JSVal) : JSVal := .vUndefined

/-- State observed by connect/disconnect: the prototype of each instance
(instances named by numbers) and membership in the `connections` WeakMap. -/
structure ConnState where
  protoOf : Nat → JSVal
  connectionsHas : Nat → Bool

/-- connect (lines 271-290).  The guard
`!validateAccess(this, 1) || !connections.has(obj)` is evaluated first;
since validateAccess returns undefined, its negation is true and the
TypeError("Inaccessible") of line 273 is thrown on every call, leaving the
state untouched.  Were the guard ever passed, line 277 would evaluate the
identifier PVT_DATA, which is declared nowhere in the file, throwing a
ReferenceError before any layer could be installed. -/
def connect (st : ConnState) (thisV : JSVal) (obj : Nat) (_id : JSVal) :
    ConnState × Except JSErr Unit :=
  if !(truthy (validateAccess thisV (.vNum 1))) || !(st.connectionsHas obj) then
    (st, .error .inaccessible)
  else
    (st, .error (.unboundIdentifier "PVT_DATA"))

/-- disconnect (lines 299-311).  With a nullish id, line 301 evaluates the
bare identifier `prototype`, which is not in scope in disconnect (the only
`prototype` binding is a local of connect); otherwise line 303 evaluates
the undeclared PVT_DATA.  Both paths throw a ReferenceError and the
prototype chain is never restored. -/
def disconnect (st : ConnState) (_obj : Nat) (id : JSVal) :
    ConnState × Except JSErr Unit :=
  if isNullOrUndefined id then
    (st, .error (.unboundIdentifier "prototype"))
  else
    (st, .error (.unboundIdentifier "PVT_DATA"))

/-- The wrapper built by makePvtName (lines 121-131) under the bindings the
code plainly intends: an ambient `stack` array and a `proxyMap` table.  The
delegate call is summarised by its outcome `call` (a value or a thrown
error).  The body is
`stack.push(name); let retval = fn.apply(inst, args); stack.pop(); return retval;`
with no try/finally, so the pop is skipped whenever fn throws. -/
def pvtWrapperIntended (name : String) (stack : List String)
    (call : Except JSErr JSVal) : List String × Except JSErr JSVal :=
  let pushed := stack ++ [name]
  match call with
  | .ok v => (pushed.dropLast, .ok v)
  | .error e => (pushed, .error e)

/-- The wrapper as the file actually stands: its first statement
`let inst = proxyMap.get(this) || this;` evaluates proxyMap, an identifier
declared nowhere in the file, so every invocation throws a ReferenceError
before anything is pushed and before fn is applied. -/
def pvtWrapperAsWritten (stack : List String) (_call : Except JSErr JSVal) :
    List String × Except JSErr JSVal :=
  (stack, .error (.unboundIdentifier "proxyMap"))

/-- A candidate argument to isPlaceHolder: an object reference with its own
properties, its frozen bit, and whether this exact object is a key of the
`initFns` WeakMap (identity-keyed side table). -/
structure ObjRef where
  props : List (JSKey × JSVal)
  frozen : Bool
  inInitFns : Bool

/-- The marker object built by init (lines 586-588):
`Object.freeze({ [PLACEHOLDER]: { value: void 0 } })` — one own symbol key
whose value is the object `{value: undefined}` (not undefined!), frozen,
and registered in initFns. -/
def initMarker : ObjRef :=
  ⟨[(PLACEHOLDER_KEY, .vObj [(.str "value", .vUndefined)])], true, true⟩

/-- init (lines 581-592): requires a function argument, then returns the
marker and records it in initFns. -/
def initRun (fn : JSVal) : Except JSErr ObjRef :=
  match fn with
  | .vFun _ => .ok initMarker
  | _ => .error .initNeedsFunction

/-- The property ClassicM.PLACEHOLDER read at line 607: the static API
installed on ClassicM (lines 452-628) defines STATIC, PRIVATE, PROTECTED,
PUBLIC, CLASSNAME, INHERITMODE, CLASS, ABSTRACT, FINAL, init,
isPlaceHolder, getInitValue and two setters — but no PLACEHOLDER — so the
read yields undefined. -/
def classicMPlaceholderProp : JSVal := .vUndefined

/-- ToPropertyKey coercion used by `val.hasOwnProperty(arg)`: non-symbol
arguments are stringified, so undefined becomes the string key "undefined". -/
def toPropertyKey : JSVal → JSKey
  | .vStr s => .str s
  | .vSym n => .sym n
  | .vUndefined => .str "undefined"
  | .vNull => .str "null"
  | .vBool b => .str (toString b)
  | .vNum n => .str (toString n)
  | .vFun _ => .str "function"
  | .vObj _ => .str "[object Object]"

/-- Number of own string-named properties (Object.getOwnPropertyNames). -/
def strNameCount (ps : List (JSKey × JSVal)) : Nat :=
  ((ps.map Prod.fst).filter isStrKey).length

/-- Number of own symbol-keyed properties (Object.getOwnPropertySymbols). -/
def symKeyCount (ps : List (JSKey × JSVal)) : Nat :=
  ((ps.map Prod.fst).filter (fun k => !(isStrKey k))).length

/-- isPlaceHolder (lines 600-611), clause by clause:
object check, Object.isFrozen, zero own names, exactly one own symbol,
`val.hasOwnProperty(ClassicM.PLACEHOLDER)` (which coerces the undefined
ClassicM.PLACEHOLDER to the string key "undefined"),
`val[PLACEHOLDER] === void 0`, and membership in initFns. -/
def isPlaceHolder (v : ObjRef) : Bool :=
  v.frozen
    && (strNameCount v.props == 0)
    && (symKeyCount v.props == 1)
    && hasOwn v.props (toPropertyKey classicMPlaceholderProp)
    && isUndefinedVal (getOwnD v.props PLACEHOLDER_KEY)
    && v.inInitFns

/-- The root object constructor `Object`, default base of ClassicM. -/
def OBJECT : JSVal := .vFun 0

/-- Whether `typeof v === "function"`. -/
def typeofFunction : JSVal → Bool
  | .vFun _ => true
  | _ => false

/-- The own properties of a value when it is an object literal. -/
def objProps : JSVal → List (JSKey × JSVal)
  | .vObj ps => ps
  | _ => []

/-- Membership test of the `classDefs` WeakMap at the time ClassicM runs:
the file contains no classDefs.set call at all, so the map is empty for
the whole life of the process and the test is false for every base. -/
def classDefsHas (_base : JSVal) : Bool := false

/-- The argument-normalisation switch of ClassicM (lines 389-415).  With
two or more arguments, line 408 tests `!typeof(base) === "function"`,
which by precedence is `(!typeof(base)) === "function"`, always false, so
the base is never rejected there; only the data check of line 411 can
throw. -/
def ClassicMArgs (args : List JSVal) : Except JSErr (JSVal × JSVal) :=
  match args with
  | [] => .ok (OBJECT, .vObj [])
  | [base] =>
    if typeofFunction base then .ok (base, .vObj [])
    else if typeofObject base then .ok (OBJECT, if truthy base then base else .vObj [])
    else .error .invalidArgument
  | base :: data :: _ =>
    if truthy data && typeofObject data then .ok (base, data)
    else .error .badDataParam

/-- ClassicM (lines 387-632): normalise arguments, validate the definition
with fixupData, run the final-class guard (dead, because classDefs is
never populated; were it entered, reading ClassicM.INHERITMODE would
evaluate the undeclared `useStrings` inside its getter, a ReferenceError),
then execute `let newClass = eval(` followed by backtick () backtick `)`
(line 431) — and "()" is not a valid program, so eval throws a
SyntaxError.  No execution path reaches a return statement (the function
body also contains none), so a constructor is never produced. -/
def ClassicMRun (args : List JSVal) : Except JSErr JSVal :=
  match ClassicMArgs args with
  | .error e => .error e
  | .ok (base, data) =>
    match fixupData (objProps data) with
    | .error e => .error e
    | .ok _definition =>
      if classDefsHas base then
        .error (.unboundIdentifier "useStrings")
      else
        .error .evalSynErr

/-- Lexically declared names of the body of ClassicM:
`let definition` (line 418), `let className` (line 430),
`let newClass` (line 431), `let prototypes` (line 449). -/
def classicMBodyLetNames : List String :=
  ["definition", "className", "newClass", "prototypes"]

/-- Var-scoped names of the body of ClassicM contributed by hoisted
function declarations: `function newClass(...)` at line 432. -/
def classicMBodyFnDeclNames : List String := ["newClass"]

/-- ECMAScript early-error rule for a function body: it is a Syntax Error
if any LexicallyDeclaredName also occurs in the VarDeclaredNames.  This
finds the offending name of ClassicM, if any. -/
def firstDupBinding : Option String :=
  classicMBodyLetNames.find? (fun n => classicMBodyFnDeclNames.contains n)

/-- Parsing the module: the duplicate `newClass` binding (let at line 431,
function declaration at line 432, same function-body scope) is an early
SyntaxError, raised before any top-level statement runs. -/
def parseModule : Except JSErr Unit :=
  match firstDupBinding with
  | some n => .error (.dupBinding n)
  | none => .ok ()

/-- Symbol is not a constructor: it has no construct behaviour, so
`new Symbol(...)` throws a TypeError. -/
def symbolIsConstructor : Bool := false

/-- Evaluation of the module top level, had it parsed: the const
declarations of lines 42-81 succeed, then line 83 executes
`const PLACEHOLDER = new Symbol("ClassicJSMinus::PLACEHOLDER")`,
which throws a TypeError because Symbol is not a constructor. -/
def topLevelEval : Except JSErr Unit :=
  if symbolIsConstructor then .ok () else .error (.notAConstructor "Symbol")

/-- Loading the module: parse first, then evaluate the top level. -/
def loadModule : Except JSErr Unit :=
  match parseModule with
  | .error e => .error e
  | .ok _ => topLevelEval

/-- Whether an Except result is the shape TypeError of fixupData. -/
def isShapeE : JSErr → Bool
  | .regionNotObject _ => true
  | _ => false

/-- Whether a fixupData result failed with the shape TypeError. -/
def isShapeErrOf : Except JSErr (List (JSKey × JSVal)) → Bool
  | .error e => isShapeE e
  | .ok _ => false

/-- Whether an error is the inheritance error of line 421. -/
def isCEF : JSErr → Bool
  | .cannotExtendFinal => true
  | _ => false

/-- Whether a ClassicM result failed with the inheritance error. -/
def errIsCannotExtendFinal : Except JSErr JSVal → Bool
  | .error e => isCEF e
  | .ok _ => false

/-- Whether the error produced by loading the module is a TypeError. -/
def loadErrKindIsTypeErr : Bool :=
  match loadModule with
  | .error e => e.kind == ErrKind.typeErr
  | .ok _ => false

/-- The instance-level region keys in the iteration order of fixupData. -/
def regionList : List JSKey := [STATIC, PRIVATE, PROTECTED, PUBLIC]

/-- The static-level region keys in iteration order. -/
def staticRegionList : List JSKey := [PRIVATE, PROTECTED, PUBLIC]

/-- Own keys contributed by one visibility region of a raw definition. -/
def ownKeysOfRegion (data : List (JSKey × JSVal)) (r : JSKey) : List JSKey :=
  jsOwnKeyList (getOwnD data r)

/-- All keys the instance-level loop feeds into the duplicate set, in
order. -/
def instanceKeys (data : List (JSKey × JSVal)) : List JSKey :=
  ownKeysOfRegion data STATIC ++ ownKeysOfRegion data PRIVATE ++
    ownKeysOfRegion data PROTECTED ++ ownKeysOfRegion data PUBLIC

/-- Own keys contributed by one sub-region of the STATIC object. -/
def staticOwnKeys (data : List (JSKey × JSVal)) (r : JSKey) : List JSKey :=
  match getOwnD data STATIC with
  | .vObj sp => jsOwnKeyList (getOwnD sp r)
  | _ => []

/-- All keys the static-level loop feeds into the cleared duplicate set. -/
def staticKeys (sp : List (JSKey × JSVal)) : List JSKey :=
  jsOwnKeyList (getOwnD sp PRIVATE) ++ jsOwnKeyList (getOwnD sp PROTECTED) ++
    jsOwnKeyList (getOwnD sp PUBLIC)

/-- A region is clean when it is absent or holds an actual object. -/
def regionClean (data : List (JSKey × JSVal)) (k : JSKey) : Bool :=
  !(hasOwn data k) || isObj (getOwnD data k)

/-- All four instance-level regions are clean. -/
def allClean (data : List (JSKey × JSVal)) : Bool :=
  regionList.all (regionClean data)

/-- The three sub-regions of a static object are clean. -/
def staticObjClean (sp : List (JSKey × JSVal)) : Bool :=
  staticRegionList.all (fun e => !(hasOwn sp e) || isObj (getOwnD sp e))

/-- Cleanliness of the static level of a raw definition. -/
def staticCleanOf (data : List (JSKey × JSVal)) : Bool :=
  match getOwnD data STATIC with
  | .vObj sp => staticObjClean sp
  | _ => true

/-- A region is shape-safe when absent, an object, or falsy: none of these
can fire the shape throw of line 231. -/
def regionShapeSafe (data : List (JSKey × JSVal)) (k : JSKey) : Bool :=
  !(hasOwn data k) || (isObj (getOwnD data k) || !(truthy (getOwnD data k)))

/-- Shape-safety of a whole raw definition, static sub-regions included. -/
def shapeSafe (data : List (JSKey × JSVal)) : Bool :=
  regionList.all (regionShapeSafe data) &&
    (match getOwnD data STATIC with
     | .vObj sp =>
       staticRegionList.all
         (fun e => !(hasOwn sp e) || (isObj (getOwnD sp e) || !(truthy (getOwnD sp e))))
     | _ => true)

/-- The update each instance-level loop step applies to retval. -/
def regionStore (data : List (JSKey × JSVal)) (rv : List (JSKey × JSVal))
    (k : JSKey) : List (JSKey × JSVal) :=
  setProp rv k (getOwnD data k)

/-- retval after the four instance-level stores. -/
def rv4 (data rv : List (JSKey × JSVal)) : List (JSKey × JSVal) :=
  regionStore data (regionStore data (regionStore data (regionStore data rv STATIC)
    PRIVATE) PROTECTED) PUBLIC

/-- The update each static-level loop step applies to retval. -/
def sStore (sp rv : List (JSKey × JSVal)) (e : JSKey) : List (JSKey × JSVal) :=
  if hasOwn sp e then setProp rv e (getOwnD sp e) else setStaticSub rv e

/-- retval after the three static-level stores. -/
def srv3 (sp rv : List (JSKey × JSVal)) : List (JSKey × JSVal) :=
  sStore sp (sStore sp (sStore sp rv PRIVATE) PROTECTED) PUBLIC

/-- Two distinct instance-level visibility regions share a member key. -/
def twoRegionDup (data : List (JSKey × JSVal)) : Prop :=
  ∃ k r1 r2, r1 ∈ regionList ∧ r2 ∈ regionList ∧ r1 ≠ r2 ∧
    k ∈ ownKeysOfRegion data r1 ∧ k ∈ ownKeysOfRegion data r2

/-- Two distinct sub-regions of the STATIC level share a member key. -/
def twoStaticRegionDup (data : List (JSKey × JSVal)) : Prop :=
  ∃ k r1 r2, r1 ∈ staticRegionList ∧ r2 ∈ staticRegionList ∧ r1 ≠ r2 ∧
    k ∈ staticOwnKeys data r1 ∧ k ∈ staticOwnKeys data r2

theorem crossFalse {α : Type} {xs ys : List α} (h : (xs ++ ys).Nodup) {k : α}
    (h1 : k ∈ xs) (h2 : k ∈ ys) : False := by
  induction xs with
  | nil => cases h1
  | cons x xs ih =>
    rw [List.cons_append, List.nodup_cons] at h
    rcases List.mem_cons.mp h1 with rfl | hmem
    · exact h.1 (List.mem_append_right _ h2)
    · exact ih h.2 hmem

theorem nodupRight {α : Type} {xs ys : List α} (h : (xs ++ ys).Nodup) : ys.Nodup := by
  induction xs with
  | nil => exact h
  | cons x xs ih =>
    rw [List.cons_append, List.nodup_cons] at h
    exact ih h.2

theorem nodupSnoc {α : Type} {xs : List α} {k : α} (h : xs.Nodup) (hk : k ∉ xs) :
    (xs ++ [k]).Nodup := by
  induction xs with
  | nil => simp
  | cons x xs ih =>
    rw [List.nodup_cons] at h
    rw [List.cons_append, List.nodup_cons]
    refine ⟨?_, ih h.2 (fun hm => hk (List.mem_cons_of_mem _ hm))⟩
    intro hx
    rcases List.mem_append.mp hx with hx | hx
    · exact h.1 hx
    · rw [List.mem_singleton] at hx
      exact hk (by rw [← hx]; exact List.mem_cons_self x xs)

theorem checkDup_append (xs ys : List JSKey) : ∀ dups,
    checkDup dups (xs ++ ys) =
      match checkDup dups xs with
      | .error e => .error e
      | .ok d => checkDup d ys := by
  induction xs with
  | nil => intro dups; simp [checkDup]
  | cons k ks ih =>
    intro dups
    by_cases hk : k ∈ dups
    · simp [checkDup, hk]
    · simp [checkDup, hk, ih]

theorem checkDup_ok_eq (xs : List JSKey) : ∀ dups d,
    checkDup dups xs = .ok d → d = dups ++ xs := by
  induction xs with
  | nil => intro dups d h; simp [checkDup] at h; simp [h]
  | cons k ks ih =>
    intro dups d h
    by_cases hk : k ∈ dups
    · simp [checkDup, hk] at h
    · simp [checkDup, hk] at h
      have := ih (dups ++ [k]) d h
      simpa [List.append_assoc] using this

theorem checkDup_err_dupKey (xs : List JSKey) : ∀ dups e,
    checkDup dups xs = .error e → ∃ k, e = .dupKey k := by
  induction xs with
  | nil => intro dups e h; simp [checkDup] at h
  | cons k ks ih =>
    intro dups e h
    by_cases hk : k ∈ dups
    · simp [checkDup, hk] at h
      exact ⟨k, h.symm⟩
    · simp [checkDup, hk] at h
      exact ih _ _ h

theorem checkDup_ok_nodup (xs : List JSKey) : ∀ dups d, dups.Nodup →
    checkDup dups xs = .ok d → (dups ++ xs).Nodup := by
  induction xs with
  | nil => intro dups d h hck; simpa using h
  | cons k ks ih =>
    intro dups d h hck
    by_cases hk : k ∈ dups
    · simp [checkDup, hk] at hck
    · simp [checkDup, hk] at hck
      have := ih (dups ++ [k]) d (nodupSnoc h hk) hck
      simpa [List.append_assoc] using this

theorem getOwn_setProp_self (k : JSKey) (v : JSVal) : ∀ ps,
    getOwn (setProp ps k v) k = some v := by
  intro ps
  induction ps with
  | nil => simp [setProp, getOwn]
  | cons p ps ih =>
    by_cases hk : p.1 = k
    · simp [setProp, hk, getOwn]
    · simp [setProp, hk, getOwn, ih]

theorem getOwn_setProp_ne {k k' : JSKey} (h : k' ≠ k) (v : JSVal) : ∀ ps,
    getOwn (setProp ps k v) k' = getOwn ps k' := by
  intro ps
  induction ps with
  | nil => simp [setProp, getOwn, Ne.symm h]
  | cons p ps ih =>
    obtain ⟨pk, pv⟩ := p
    by_cases hk : pk = k
    · subst hk
      simp [setProp, getOwn, Ne.symm h]
    · simp [setProp, hk, getOwn, ih]

theorem getOwnD_absent (data : List (JSKey × JSVal)) (k : JSKey)
    (h : hasOwn data k = false) : getOwnD data k = .vUndefined := by
  unfold hasOwn at h
  unfold getOwnD
  cases hg : getOwn data k with
  | none => rfl
  | some v => rw [hg] at h; simp at h

theorem getAllKeys_err (v : JSVal) (e : JSErr) (h : getAllKeys v = .error e) :
    e = .toObjectOnNullish := by
  cases v <;> simp [getAllKeys] at h <;> exact h.symm

theorem processRegion_clean (data : List (JSKey × JSVal)) (st : FixSt) (k : JSKey)
    (h : regionClean data k = true) :
    processRegion data st k =
      match checkDup st.dups (jsOwnKeyList (getOwnD data k)) with
      | .error e => .error e
      | .ok d => .ok ⟨setProp st.retval k (getOwnD data k), d⟩ := by
  unfold processRegion
  by_cases hown : hasOwn data k = true
  · unfold regionClean at h
    rw [hown] at h
    simp only [Bool.not_true, Bool.false_or] at h
    obtain ⟨ps, hv⟩ : ∃ ps, getOwnD data k = .vObj ps := by
      cases hv : getOwnD data k <;> rw [hv] at h <;> simp [isObj] at h
      exact ⟨_, rfl⟩
    simp [hown, hv, truthy, typeofObject, getAllKeys]
  · have hof : hasOwn data k = false := by simpa using hown
    rw [getOwnD_absent data k hof]
    simp [hof, jsOwnKeyList, checkDup]

theorem processRegion_ok_retval (data : List (JSKey × JSVal)) (st : FixSt) (k : JSKey)
    (st' : FixSt) (h : processRegion data st k = .ok st') :
    st'.retval = setProp st.retval k (getOwnD data k) := by
  unfold processRegion at h
  split at h
  · split at h
    · exact Except.noConfusion h
    · split at h
      · exact Except.noConfusion h
      · split at h
        · exact Except.noConfusion h
        · injection h with h1
          rw [← h1]
  · injection h with h1
    rw [← h1]
    rename_i hown
    rw [getOwnD_absent data k (by simpa using hown)]

theorem processRegion_not_shape (data : List (JSKey × JSVal)) (st : FixSt) (k : JSKey)
    (hs : regionShapeSafe data k = true) (e : JSErr)
    (h : processRegion data st k = .error e) : isShapeE e = false := by
  unfold processRegion at h
  split at h
  · rename_i hown
    unfold regionShapeSafe at hs
    rw [hown] at hs
    simp only [Bool.not_true, Bool.false_or, Bool.or_eq_true] at hs
    have hcond : (truthy (getOwnD data k) && !(typeofObject (getOwnD data k))) = false := by
      rcases hs with hs | hs
      · obtain ⟨ps, hv⟩ : ∃ ps, getOwnD data k = .vObj ps := by
          cases hv : getOwnD data k <;> rw [hv] at hs <;> simp [isObj] at hs
          exact ⟨_, rfl⟩
        rw [hv]; rfl
      · have hs2 : truthy (getOwnD data k) = false := by simpa using hs
        rw [hs2]; rfl
    rw [hcond] at h
    simp only [Bool.false_eq_true, if_false] at h
    split at h
    · rename_i e' hga
      injection h with h1
      rw [← h1, getAllKeys_err _ _ hga]
      rfl
    · split at h
      · rename_i e' hck
        injection h with h1
        obtain ⟨kk, hkk⟩ := checkDup_err_dupKey _ _ _ hck
        rw [← h1, hkk]
        rfl
      · exact Except.noConfusion h
  · exact Except.noConfusion h

theorem processRegion_err_class (data : List (JSKey × JSVal)) (st : FixSt) (k : JSKey)
    (e : JSErr) (h : processRegion data st k = .error e) : isCEF e = false := by
  unfold processRegion at h
  split at h
  · split at h
    · injection h with h1
      rw [← h1]
      rfl
    · split at h
      · rename_i e' hga
        injection h with h1
        rw [← h1, getAllKeys_err _ _ hga]
        rfl
      · split at h
        · rename_i e' hck
          injection h with h1
          obtain ⟨kk, hkk⟩ := checkDup_err_dupKey _ _ _ hck
          rw [← h1, hkk]
          rfl
        · exact Except.noConfusion h
  · exact Except.noConfusion h

theorem processStaticRegion_clean (sp : List (JSKey × JSVal)) (st : FixSt) (k : JSKey)
    (h : (!(hasOwn sp k) || isObj (getOwnD sp k)) = true) :
    processStaticRegion (.vObj sp) st k =
      match checkDup st.dups (jsOwnKeyList (getOwnD sp k)) with
      | .error e => .error e
      | .ok d => .ok ⟨sStore sp st.retval k, d⟩ := by
  unfold processStaticRegion
  by_cases hown : hasOwn sp k = true
  · rw [hown] at h
    simp only [Bool.not_true, Bool.false_or] at h
    obtain ⟨ps, hv⟩ : ∃ ps, getOwnD sp k = .vObj ps := by
      cases hv : getOwnD sp k <;> rw [hv] at h <;> simp [isObj] at h
      exact ⟨_, rfl⟩
    simp [truthy, hasOwnVal, hown, getPropVal, hv, typeofObject, getAllKeys, sStore]
  · have hof : hasOwn sp k = false := by simpa using hown
    rw [getOwnD_absent sp k hof]
    simp [truthy, hasOwnVal, hof, jsOwnKeyList, checkDup, sStore]

theorem processStaticRegion_not_shape (sp : List (JSKey × JSVal)) (st : FixSt) (k : JSKey)
    (hs : (!(hasOwn sp k) || (isObj (getOwnD sp k) || !(truthy (getOwnD sp k)))) = true)
    (e : JSErr) (h : processStaticRegion (.vObj sp) st k = .error e) : isShapeE e = false := by
  unfold processStaticRegion at h
  split at h
  · rename_i hcond0
    simp only [truthy, hasOwnVal, Bool.true_and] at hcond0
    rw [hcond0] at hs
    simp only [Bool.not_true, Bool.false_or, Bool.or_eq_true] at hs
    have hcond : (truthy (getPropVal (.vObj sp) k) && !(typeofObject (getPropVal (.vObj sp) k))) = false := by
      show (truthy (getOwnD sp k) && !(typeofObject (getOwnD sp k))) = false
      rcases hs with hs | hs
      · obtain ⟨ps, hv⟩ : ∃ ps, getOwnD sp k = .vObj ps := by
          cases hv : getOwnD sp k <;> rw [hv] at hs <;> simp [isObj] at hs
          exact ⟨_, rfl⟩
        rw [hv]; rfl
      · have hs2 : truthy (getOwnD sp k) = false := by simpa using hs
        rw [hs2]; rfl
    rw [hcond] at h
    simp only [Bool.false_eq_true, if_false] at h
    split at h
    · rename_i e' hga
      injection h with h1
      rw [← h1, getAllKeys_err _ _ hga]
      rfl
    · split at h
      · rename_i e' hck
        injection h with h1
        obtain ⟨kk, hkk⟩ := checkDup_err_dupKey _ _ _ hck
        rw [← h1, hkk]
        rfl
      · exact Except.noConfusion h
  · exact Except.noConfusion h

theorem processStaticRegion_err_class (v : JSVal) (st : FixSt) (k : JSKey)
    (e : JSErr) (h : processStaticRegion v st k = .error e) : isCEF e = false := by
  unfold processStaticRegion at h
  split at h
  · split at h
    · injection h with h1
      rw [← h1]
      rfl
    · split at h
      · rename_i e' hga
        injection h with h1
        rw [← h1, getAllKeys_err _ _ hga]
        rfl
      · split at h
        · rename_i e' hck
          injection h with h1
          obtain ⟨kk, hkk⟩ := checkDup_err_dupKey _ _ _ hck
          rw [← h1, hkk]
          rfl
        · exact Except.noConfusion h
  · exact Except.noConfusion h

theorem processRegion_clean2 (data : List (JSKey × JSVal)) (k : JSKey)
    (h : regionClean data k = true) (rv : List (JSKey × JSVal)) (dups : List JSKey) :
    processRegion data ⟨rv, dups⟩ k =
      match checkDup dups (ownKeysOfRegion data k) with
      | .error e => .error e
      | .ok d => .ok ⟨regionStore data rv k, d⟩ := by
  simpa [ownKeysOfRegion, regionStore] using processRegion_clean data ⟨rv, dups⟩ k h

theorem processStaticRegion_clean2 (sp : List (JSKey × JSVal)) (k : JSKey)
    (h : (!(hasOwn sp k) || isObj (getOwnD sp k)) = true)
    (rv : List (JSKey × JSVal)) (dups : List JSKey) :
    processStaticRegion (.vObj sp) ⟨rv, dups⟩ k =
      match checkDup dups (jsOwnKeyList (getOwnD sp k)) with
      | .error e => .error e
      | .ok d => .ok ⟨sStore sp rv k, d⟩ := by
  simpa using processStaticRegion_clean sp ⟨rv, dups⟩ k h

theorem allClean_parts (data : List (JSKey × JSVal)) (h : allClean data = true) :
    regionClean data STATIC = true ∧ regionClean data PRIVATE = true ∧
      regionClean data PROTECTED = true ∧ regionClean data PUBLIC = true := by
  simpa [allClean, regionList] using h

theorem instancePhase_clean (data : List (JSKey × JSVal)) (rv : List (JSKey × JSVal))
    (dups : List JSKey) (h : allClean data = true) :
    instancePhase data ⟨rv, dups⟩ =
      match checkDup dups (instanceKeys data) with
      | .error e => .error e
      | .ok d => .ok ⟨rv4 data rv, d⟩ := by
  obtain ⟨hS, hP, hR, hU⟩ := allClean_parts data h
  unfold instancePhase
  rw [show instanceKeys data =
      ownKeysOfRegion data STATIC ++ (ownKeysOfRegion data PRIVATE ++
        (ownKeysOfRegion data PROTECTED ++ ownKeysOfRegion data PUBLIC)) by simp [instanceKeys]]
  rw [checkDup_append, processRegion_clean2 data STATIC hS rv dups]
  cases h1 : checkDup dups (ownKeysOfRegion data STATIC) with
  | error e => rfl
  | ok d1 =>
    simp only
    rw [checkDup_append, processRegion_clean2 data PRIVATE hP _ d1]
    cases h2 : checkDup d1 (ownKeysOfRegion data PRIVATE) with
    | error e => rfl
    | ok d2 =>
      simp only
      rw [checkDup_append, processRegion_clean2 data PROTECTED hR _ d2]
      cases h3 : checkDup d2 (ownKeysOfRegion data PROTECTED) with
      | error e => rfl
      | ok d3 =>
        simp only
        rw [processRegion_clean2 data PUBLIC hU _ d3]
        cases h4 : checkDup d3 (ownKeysOfRegion data PUBLIC) with
        | error e => rfl
        | ok d4 => simp [rv4]

theorem staticObjClean_parts (sp : List (JSKey × JSVal)) (h : staticObjClean sp = true) :
    (!(hasOwn sp PRIVATE) || isObj (getOwnD sp PRIVATE)) = true ∧
      (!(hasOwn sp PROTECTED) || isObj (getOwnD sp PROTECTED)) = true ∧
      (!(hasOwn sp PUBLIC) || isObj (getOwnD sp PUBLIC)) = true := by
  simpa [staticObjClean, staticRegionList] using h

theorem staticPhase_clean (sp : List (JSKey × JSVal)) (rv : List (JSKey × JSVal))
    (dups : List JSKey) (h : staticObjClean sp = true) :
    staticPhase (.vObj sp) ⟨rv, dups⟩ =
      match checkDup dups (staticKeys sp) with
      | .error e => .error e
      | .ok d => .ok ⟨srv3 sp rv, d⟩ := by
  obtain ⟨hP, hR, hU⟩ := staticObjClean_parts sp h
  unfold staticPhase
  rw [show staticKeys sp =
      jsOwnKeyList (getOwnD sp PRIVATE) ++ (jsOwnKeyList (getOwnD sp PROTECTED) ++
        jsOwnKeyList (getOwnD sp PUBLIC)) by simp [staticKeys]]
  rw [checkDup_append, processStaticRegion_clean2 sp PRIVATE hP rv dups]
  cases h1 : checkDup dups (jsOwnKeyList (getOwnD sp PRIVATE)) with
  | error e => rfl
  | ok d1 =>
    simp only
    rw [checkDup_append, processStaticRegion_clean2 sp PROTECTED hR _ d1]
    cases h2 : checkDup d1 (jsOwnKeyList (getOwnD sp PROTECTED)) with
    | error e => rfl
    | ok d2 =>
      simp only
      rw [processStaticRegion_clean2 sp PUBLIC hU _ d2]
      cases h3 : checkDup d2 (jsOwnKeyList (getOwnD sp PUBLIC)) with
      | error e => rfl
      | ok d3 => simp [srv3]

theorem instancePhase_ok_retval (data : List (JSKey × JSVal)) (st0 st4 : FixSt)
    (h : instancePhase data st0 = .ok st4) : st4.retval = rv4 data st0.retval := by
  unfold instancePhase at h
  split at h
  · exact Except.noConfusion h
  · rename_i st1 heq1
    split at h
    · exact Except.noConfusion h
    · rename_i st2 heq2
      split at h
      · exact Except.noConfusion h
      · rename_i st3 heq3
        have r1 := processRegion_ok_retval data st0 STATIC st1 heq1
        have r2 := processRegion_ok_retval data st1 PRIVATE st2 heq2
        have r3 := processRegion_ok_retval data st2 PROTECTED st3 heq3
        have r4 := processRegion_ok_retval data st3 PUBLIC st4 h
        rw [r4, r3, r2, r1]
        simp [rv4, regionStore]

theorem rv4_static (data rv : List (JSKey × JSVal)) :
    getOwn (rv4 data rv) STATIC = some (getOwnD data STATIC) := by
  unfold rv4 regionStore
  rw [getOwn_setProp_ne (show STATIC ≠ PUBLIC by decide) _ _,
      getOwn_setProp_ne (show STATIC ≠ PROTECTED by decide) _ _,
      getOwn_setProp_ne (show STATIC ≠ PRIVATE by decide) _ _,
      getOwn_setProp_self]

theorem getOwnD_rv4_static (data rv : List (JSKey × JSVal)) :
    getOwnD (rv4 data rv) STATIC = getOwnD data STATIC := by
  unfold getOwnD
  rw [show getOwn (rv4 data rv) STATIC = some (getOwnD data STATIC) from rv4_static data rv]
  rfl

theorem instancePhase_err_shape (data : List (JSKey × JSVal)) (st0 : FixSt) (e : JSErr)
    (hs : regionList.all (regionShapeSafe data) = true)
    (h : instancePhase data st0 = .error e) : isShapeE e = false := by
  obtain ⟨hS, hP, hR, hU⟩ : regionShapeSafe data STATIC = true ∧
      regionShapeSafe data PRIVATE = true ∧ regionShapeSafe data PROTECTED = true ∧
      regionShapeSafe data PUBLIC = true := by simpa [regionList] using hs
  unfold instancePhase at h
  split at h
  · rename_i e1 heq
    injection h with h2
    rw [← h2]
    exact processRegion_not_shape data st0 STATIC hS e1 heq
  · rename_i st1 heq1
    split at h
    · rename_i e1 heq
      injection h with h2
      rw [← h2]
      exact processRegion_not_shape data st1 PRIVATE hP e1 heq
    · rename_i st2 heq2
      split at h
      · rename_i e1 heq
        injection h with h2
        rw [← h2]
        exact processRegion_not_shape data st2 PROTECTED hR e1 heq
      · rename_i st3 heq3
        exact processRegion_not_shape data st3 PUBLIC hU e h

theorem instancePhase_err_class (data : List (JSKey × JSVal)) (st0 : FixSt) (e : JSErr)
    (h : instancePhase data st0 = .error e) : isCEF e = false := by
  unfold instancePhase at h
  split at h
  · rename_i e1 heq
    injection h with h2
    rw [← h2]
    exact processRegion_err_class data st0 STATIC e1 heq
  · rename_i st1 heq1
    split at h
    · rename_i e1 heq
      injection h with h2
      rw [← h2]
      exact processRegion_err_class data st1 PRIVATE e1 heq
    · rename_i st2 heq2
      split at h
      · rename_i e1 heq
        injection h with h2
        rw [← h2]
        exact processRegion_err_class data st2 PROTECTED e1 heq
      · rename_i st3 heq3
        exact processRegion_err_class data st3 PUBLIC e h

theorem staticPhase_err_shape (sp : List (JSKey × JSVal)) (st0 : FixSt) (e : JSErr)
    (hs : staticRegionList.all
      (fun k => !(hasOwn sp k) || (isObj (getOwnD sp k) || !(truthy (getOwnD sp k)))) = true)
    (h : staticPhase (.vObj sp) st0 = .error e) : isShapeE e = false := by
  obtain ⟨hP, hR, hU⟩ :
      (!(hasOwn sp PRIVATE) || (isObj (getOwnD sp PRIVATE) || !(truthy (getOwnD sp PRIVATE)))) = true ∧
      (!(hasOwn sp PROTECTED) || (isObj (getOwnD sp PROTECTED) || !(truthy (getOwnD sp PROTECTED)))) = true ∧
      (!(hasOwn sp PUBLIC) || (isObj (getOwnD sp PUBLIC) || !(truthy (getOwnD sp PUBLIC)))) = true := by
    simpa [staticRegionList] using hs
  unfold staticPhase at h
  split at h
  · rename_i e1 heq
    injection h with h2
    rw [← h2]
    exact processStaticRegion_not_shape sp st0 PRIVATE hP e1 heq
  · rename_i t1 heq1
    split at h
    · rename_i e1 heq
      injection h with h2
      rw [← h2]
      exact processStaticRegion_not_shape sp t1 PROTECTED hR e1 heq
    · rename_i t2 heq2
      exact processStaticRegion_not_shape sp t2 PUBLIC hU e h

theorem staticPhase_err_class (v : JSVal) (st0 : FixSt) (e : JSErr)
    (h : staticPhase v st0 = .error e) : isCEF e = false := by
  unfold staticPhase at h
  split at h
  · rename_i e1 heq
    injection h with h2
    rw [← h2]
    exact processStaticRegion_err_class v st0 PRIVATE e1 heq
  · rename_i t1 heq1
    split at h
    · rename_i e1 heq
      injection h with h2
      rw [← h2]
      exact processStaticRegion_err_class v t1 PROTECTED e1 heq
    · rename_i t2 heq2
      exact processStaticRegion_err_class v t2 PUBLIC e h

theorem fixupData_err_class (data : List (JSKey × JSVal)) (e : JSErr)
    (h : fixupData data = .error e) : isCEF e = false := by
  simp only [fixupData] at h
  split at h
  · rename_i e1 heq
    injection h with h2
    rw [← h2]
    exact instancePhase_err_class data _ e1 heq
  · rename_i st4 heq4
    split at h
    · split at h
      · rename_i e1 heq
        injection h with h2
        rw [← h2]
        exact staticPhase_err_class _ _ e1 heq
      · exact Except.noConfusion h
    · exact Except.noConfusion h

theorem nodupLeft {α : Type} {xs ys : List α} (h : (xs ++ ys).Nodup) : xs.Nodup := by
  induction xs with
  | nil => exact List.nodup_nil
  | cons x xs ih =>
    rw [List.cons_append, List.nodup_cons] at h
    rw [List.nodup_cons]
    exact ⟨fun hm => h.1 (List.mem_append_left _ hm), ih h.2⟩

theorem twoRegionDup_not_nodup (data : List (JSKey × JSVal)) (h : twoRegionDup data) :
    ¬(instanceKeys data).Nodup := by
  intro hnod
  simp only [instanceKeys] at hnod
  have hab : ∀ x, x ∈ ownKeysOfRegion data STATIC → x ∈ ownKeysOfRegion data PRIVATE → False :=
    fun x h1 h2 => crossFalse (nodupLeft (nodupLeft hnod)) h1 h2
  have hac : ∀ x, x ∈ ownKeysOfRegion data STATIC → x ∈ ownKeysOfRegion data PROTECTED → False :=
    fun x h1 h2 => crossFalse (nodupLeft hnod) (List.mem_append_left _ h1) h2
  have had : ∀ x, x ∈ ownKeysOfRegion data STATIC → x ∈ ownKeysOfRegion data PUBLIC → False :=
    fun x h1 h2 => crossFalse hnod (List.mem_append_left _ (List.mem_append_left _ h1)) h2
  have hbc : ∀ x, x ∈ ownKeysOfRegion data PRIVATE → x ∈ ownKeysOfRegion data PROTECTED → False :=
    fun x h1 h2 => crossFalse (nodupLeft hnod) (List.mem_append_right _ h1) h2
  have hbd : ∀ x, x ∈ ownKeysOfRegion data PRIVATE → x ∈ ownKeysOfRegion data PUBLIC → False :=
    fun x h1 h2 => crossFalse hnod (List.mem_append_left _ (List.mem_append_right _ h1)) h2
  have hcd : ∀ x, x ∈ ownKeysOfRegion data PROTECTED → x ∈ ownKeysOfRegion data PUBLIC → False :=
    fun x h1 h2 => crossFalse hnod (List.mem_append_right _ h1) h2
  obtain ⟨k, r1, r2, hr1, hr2, hne, hk1, hk2⟩ := h
  have e1 : r1 = STATIC ∨ r1 = PRIVATE ∨ r1 = PROTECTED ∨ r1 = PUBLIC := by
    simpa [regionList] using hr1
  have e2 : r2 = STATIC ∨ r2 = PRIVATE ∨ r2 = PROTECTED ∨ r2 = PUBLIC := by
    simpa [regionList] using hr2
  rcases e1 with rfl | rfl | rfl | rfl <;> rcases e2 with rfl | rfl | rfl | rfl
  · exact hne rfl
  · exact hab k hk1 hk2
  · exact hac k hk1 hk2
  · exact had k hk1 hk2
  · exact hab k hk2 hk1
  · exact hne rfl
  · exact hbc k hk1 hk2
  · exact hbd k hk1 hk2
  · exact hac k hk2 hk1
  · exact hbc k hk2 hk1
  · exact hne rfl
  · exact hcd k hk1 hk2
  · exact had k hk2 hk1
  · exact hbd k hk2 hk1
  · exact hcd k hk2 hk1
  · exact hne rfl

theorem twoStaticRegionDup_obj (data : List (JSKey × JSVal)) (h : twoStaticRegionDup data) :
    ∃ sp, getOwnD data STATIC = .vObj sp := by
  obtain ⟨k, r1, r2, _, _, _, hk1, _⟩ := h
  unfold staticOwnKeys at hk1
  cases hv : getOwnD data STATIC <;> rw [hv] at hk1 <;> simp at hk1
  exact ⟨_, rfl⟩

theorem twoStaticRegionDup_not_nodup (data : List (JSKey × JSVal))
    (sp : List (JSKey × JSVal)) (hSv : getOwnD data STATIC = .vObj sp)
    (h : twoStaticRegionDup data) : ¬(staticKeys sp).Nodup := by
  intro hnod
  simp only [staticKeys] at hnod
  have hab : ∀ x, x ∈ jsOwnKeyList (getOwnD sp PRIVATE) →
      x ∈ jsOwnKeyList (getOwnD sp PROTECTED) → False :=
    fun x h1 h2 => crossFalse (nodupLeft hnod) h1 h2
  have hac : ∀ x, x ∈ jsOwnKeyList (getOwnD sp PRIVATE) →
      x ∈ jsOwnKeyList (getOwnD sp PUBLIC) → False :=
    fun x h1 h2 => crossFalse hnod (List.mem_append_left _ h1) h2
  have hbc : ∀ x, x ∈ jsOwnKeyList (getOwnD sp PROTECTED) →
      x ∈ jsOwnKeyList (getOwnD sp PUBLIC) → False :=
    fun x h1 h2 => crossFalse hnod (List.mem_append_right _ h1) h2
  obtain ⟨k, r1, r2, hr1, hr2, hne, hk1, hk2⟩ := h
  rw [show staticOwnKeys data r1 = jsOwnKeyList (getOwnD sp r1) by
    unfold staticOwnKeys; rw [hSv]] at hk1
  rw [show staticOwnKeys data r2 = jsOwnKeyList (getOwnD sp r2) by
    unfold staticOwnKeys; rw [hSv]] at hk2
  have e1 : r1 = PRIVATE ∨ r1 = PROTECTED ∨ r1 = PUBLIC := by
    simpa [staticRegionList] using hr1
  have e2 : r2 = PRIVATE ∨ r2 = PROTECTED ∨ r2 = PUBLIC := by
    simpa [staticRegionList] using hr2
  rcases e1 with rfl | rfl | rfl <;> rcases e2 with rfl | rfl | rfl
  · exact hne rfl
  · exact hab k hk1 hk2
  · exact hac k hk1 hk2
  · exact hab k hk2 hk1
  · exact hne rfl
  · exact hbc k hk1 hk2
  · exact hac k hk2 hk1
  · exact hbc k hk2 hk1
  · exact hne rfl

theorem shapeSafe_no_shape (data : List (JSKey × JSVal)) (h : shapeSafe data = true) :
    isShapeErrOf (fixupData data) = false := by
  obtain ⟨hinst, hstat⟩ : regionList.all (regionShapeSafe data) = true ∧
      (match getOwnD data STATIC with
       | .vObj sp =>
         staticRegionList.all
           (fun e => !(hasOwn sp e) || (isObj (getOwnD sp e) || !(truthy (getOwnD sp e))))
       | _ => true) = true := by
    simpa [shapeSafe, Bool.and_eq_true] using h
  cases hres : fixupData data with
  | ok r => rfl
  | error e =>
    show isShapeE e = false
    simp only [fixupData] at hres
    split at hres
    · rename_i e1 heq
      injection hres with h2
      rw [← h2]
      exact instancePhase_err_shape data _ e1 hinst heq
    · rename_i st4 heq4
      split at hres
      · rename_i htr
        have hrv := instancePhase_ok_retval data _ st4 heq4
        have hslot : getOwnD st4.retval STATIC = getOwnD data STATIC := by
          rw [hrv, getOwnD_rv4_static]
        rw [hslot] at htr
        have hsafeS : regionShapeSafe data STATIC = true := by
          have h2 := hinst
          simp [regionList] at h2
          exact h2.1
        by_cases hown : hasOwn data STATIC = true
        · have hsafe2 : (isObj (getOwnD data STATIC) || !(truthy (getOwnD data STATIC))) = true := by
            unfold regionShapeSafe at hsafeS
            rw [hown] at hsafeS
            simpa using hsafeS
          have hobj : isObj (getOwnD data STATIC) = true := by
            by_cases hio : isObj (getOwnD data STATIC) = true
            · exact hio
            · exfalso
              have hio2 : isObj (getOwnD data STATIC) = false := by simpa using hio
              rw [hio2] at hsafe2
              simp at hsafe2
              rw [hsafe2] at htr
              cases htr
          obtain ⟨sp, hSv⟩ : ∃ sp, getOwnD data STATIC = .vObj sp := by
            cases hv : getOwnD data STATIC <;> rw [hv] at hobj <;> simp [isObj] at hobj
            exact ⟨_, rfl⟩
          rw [hSv] at hstat
          split at hres
          · rename_i e1 heq
            injection hres with h2
            rw [← h2]
            rw [hSv] at heq
            exact staticPhase_err_shape sp _ e1 (by simpa using hstat) heq
          · exact Except.noConfusion hres
        · have habs := getOwnD_absent data STATIC (by simpa using hown)
          rw [habs] at htr
          cases htr
      · exact Except.noConfusion hres

theorem ClassicMArgs_err (args : List JSVal) (e : JSErr)
    (h : ClassicMArgs args = .error e) : isCEF e = false := by
  unfold ClassicMArgs at h
  split at h
  · exact Except.noConfusion h
  · split at h
    · exact Except.noConfusion h
    · split at h
      · exact Except.noConfusion h
      · injection h with h1
        rw [← h1]
        rfl
  · split at h
    · exact Except.noConfusion h
    · injection h with h1
      rw [← h1]
      rfl

/-- Claim C1 (code_bug).  The claim says the wrapper built by makePvtName
pushes its unique identity on the shared call-stack trace before applying
fn and removes it on every exit path, including when fn throws.  The
wrapper body (cjsminus.js lines 124-130) is
push, apply, pop with no try/finally, so under the ambient bindings the
code intends a throwing delegate leaves the identity on the trace: the
final stack is the original with the identity still appended (first and
second conjuncts), while only the normal-return path restores it (third
conjunct).  As the file actually stands, the wrapper cannot even reach the
push: its first statement reads the undeclared identifier proxyMap and
throws a ReferenceError (fourth conjunct), so the identity is never pushed
and fn is never applied. -/
theorem makePvtName_stack_leak_on_throw (name : String) (stack : List String)
    (e : JSErr) (v : JSVal) :
    pvtWrapperIntended name stack (.error e) = (stack ++ [name], .error e) ∧
    ((stack ++ [name]).length == stack.length) = false ∧
    pvtWrapperIntended name stack (.ok v) = (stack, .ok v) ∧
    pvtWrapperAsWritten stack (.error e) = (stack, .error (.unboundIdentifier "proxyMap")) := by
  refine ⟨rfl, ?_, ?_, rfl⟩
  · simp
  · simp [pvtWrapperIntended]

/-- Claim C2 (confirmed).  connect performs the Detached to Connected
transition only when the caller passes validateAccess, and every caller
that does not pass gets the inaccessibility TypeError with the delegation
chain unchanged.  Because the validateAccess stub (lines 261-263) returns
undefined, no caller ever passes the check, so every call of connect
throws TypeError("Inaccessible") at line 273 and returns the state
untouched; in particular the transition is never performed without a
passed check. -/
theorem connect_requires_validation (st : ConnState) (thisV : JSVal) (obj : Nat)
    (id : JSVal) :
    truthy (validateAccess thisV (.vNum 1)) = false ∧
    connect st thisV obj id = (st, .error .inaccessible) := ⟨rfl, rfl⟩

/-- Claim C3 (code_bug).  The claimed counter protocol (first successful
connect installs the hidden layer with count 1, balanced disconnects
restore the original chain verbatim) is unrealisable: connect throws the
inaccessibility TypeError on every call because validateAccess is an empty
stub, so no connect ever succeeds and no hidden layer is ever installed;
and disconnect throws a ReferenceError on every call because it restores
through the undeclared identifier prototype (line 301) or tests the
undeclared PVT_DATA (line 303), so no chain is ever restored either.  Both
functions leave the state exactly as it was. -/
theorem connect_disconnect_never_manage_layer (st : ConnState) (thisV : JSVal)
    (obj : Nat) (id : JSVal) :
    connect st thisV obj id = (st, .error .inaccessible) ∧
    disconnect st obj id =
      (st, .error (.unboundIdentifier (if isNullOrUndefined id then "prototype" else "PVT_DATA"))) := by
  refine ⟨rfl, ?_⟩
  unfold disconnect
  by_cases h : isNullOrUndefined id = true
  · simp [h]
  · simp [show isNullOrUndefined id = false by simpa using h]

/-- Claim C4 (confirmed).  For every raw definition whose visibility
regions are well-shaped (absent or objects, at the instance level and
inside STATIC), if the same member key appears in two distinct visibility
regions of the same definition level — two instance-level regions, or two
sub-regions of STATIC — then fixupData throws the duplicate-name
SyntaxError of line 215, and ClassicM invoked on that definition
propagates exactly that error. -/
theorem fixupData_duplicate_name_rejected (data : List (JSKey × JSVal))
    (hclean : allClean data = true) (hsclean : staticCleanOf data = true)
    (hdup : twoRegionDup data ∨ twoStaticRegionDup data) :
    ∃ k, fixupData data = .error (.dupKey k) ∧
      ClassicMRun [JSVal.vObj data] = .error (.dupKey k) := by
  have core : ∃ k, fixupData data = .error (.dupKey k) := by
    simp only [fixupData]
    rw [instancePhase_clean data _ _ hclean]
    cases hck : checkDup [] (instanceKeys data) with
    | error e =>
      simp only [hck]
      obtain ⟨k, rfl⟩ := checkDup_err_dupKey _ _ _ hck
      exact ⟨k, rfl⟩
    | ok d =>
      simp only [hck]
      have hIK : (instanceKeys data).Nodup := by
        have h2 := checkDup_ok_nodup (instanceKeys data) [] d List.nodup_nil hck
        simpa using h2
      rcases hdup with hd | hd
      · exact absurd hIK (twoRegionDup_not_nodup data hd)
      · obtain ⟨sp, hSv⟩ := twoStaticRegionDup_obj data hd
        rw [getOwnD_rv4_static, hSv]
        have hsp : staticObjClean sp = true := by
          have h2 := hsclean
          unfold staticCleanOf at h2
          rw [hSv] at h2
          exact h2
        rw [show truthy (JSVal.vObj sp) = true from rfl, if_pos rfl]
        rw [staticPhase_clean sp _ _ hsp]
        cases hck2 : checkDup [] (staticKeys sp) with
        | error e =>
          simp only [hck2]
          obtain ⟨k, rfl⟩ := checkDup_err_dupKey _ _ _ hck2
          exact ⟨k, rfl⟩
        | ok d2 =>
          exfalso
          have hnd : (staticKeys sp).Nodup := by
            have h2 := checkDup_ok_nodup (staticKeys sp) [] d2 List.nodup_nil hck2
            simpa using h2
          exact (twoStaticRegionDup_not_nodup data sp hSv hd) hnd
  obtain ⟨k, hk⟩ := core
  refine ⟨k, hk, ?_⟩
  simp [ClassicMRun, ClassicMArgs, typeofFunction, typeofObject, truthy, objProps, hk]

/-- Witness for claim C4: a definition with the member name "x" in both
the PRIVATE and the PUBLIC region is rejected with a duplicate-name error. -/
theorem fixupData_duplicate_name_rejected_witness : ∃ k,
    fixupData [(PRIVATE, JSVal.vObj [(.str "x", JSVal.vNum 1)]),
               (PUBLIC, JSVal.vObj [(.str "x", JSVal.vNum 2)])] = .error (.dupKey k) ∧
    ClassicMRun [JSVal.vObj [(PRIVATE, JSVal.vObj [(.str "x", JSVal.vNum 1)]),
               (PUBLIC, JSVal.vObj [(.str "x", JSVal.vNum 2)])]] = .error (.dupKey k) :=
  fixupData_duplicate_name_rejected _ (by decide) (by decide)
    (Or.inl ⟨.str "x", PRIVATE, PUBLIC, by decide, by decide, by decide, by decide, by decide⟩)

/-- Counterexample for claim C5.  The claim states that fixupData fails
with a shape error if and only if some region is present, non-null and not
an object.  The region value false is present, non-null and not an object,
yet fixupData succeeds without any error: the shape check of line 230 is
guarded by JS truthiness (`item && ...`), so falsy non-object region
values slip through it. -/
theorem fixupData_shape_claim_cex :
    exceptOk (fixupData [(PRIVATE, JSVal.vBool false)]) = true ∧
    isShapeErrOf (fixupData [(PRIVATE, JSVal.vBool false)]) = false ∧
    hasOwn [(PRIVATE, JSVal.vBool false)] PRIVATE = true ∧
    isNullV (JSVal.vBool false) = false ∧
    isObj (JSVal.vBool false) = false := ⟨rfl, rfl, rfl, rfl, rfl⟩

/-- Claim C5 (corrected).  Amended statement: the shape TypeError of
line 231 fires only for a region that is present, truthy and not an
object; a definition in which every present region is an object or falsy
never produces the shape error (first conjunct); a present truthy
non-object region does produce it (second conjunct); and a present null
region does not produce the shape error but instead raises the TypeError
thrown by own-key enumeration on a nullish value inside
checkForDuplicates/getAllKeys (third conjunct). -/
theorem fixupData_shape_error_amended :
    (∀ data, shapeSafe data = true → isShapeErrOf (fixupData data) = false) ∧
    fixupData [(PRIVATE, JSVal.vNum 5)] = .error (.regionNotObject PRIVATE) ∧
    fixupData [(PRIVATE, JSVal.vNull)] = .error .toObjectOnNullish :=
  ⟨shapeSafe_no_shape, rfl, rfl⟩

/-- Witness for claim C5: a shape-safe concrete definition on which the
amended theorem applies, with the hypothesis discharged by evaluation. -/
theorem fixupData_shape_error_amended_witness :
    shapeSafe [(PRIVATE, JSVal.vObj [(.str "m", JSVal.vNum 3)])] = true ∧
    isShapeErrOf (fixupData [(PRIVATE, JSVal.vObj [(.str "m", JSVal.vNum 3)])]) = false :=
  ⟨by decide, fixupData_shape_error_amended.1 _ (by decide)⟩

/-- Counterexample for claim C6.  The claim states that the validated
static sub-regions are stored under the STATIC key of the normalized
definition rather than at the instance level.  On a definition whose
instance PRIVATE region is the object with member "a" and whose STATIC
region carries a PRIVATE sub-region with member "b", line 251
(`retval[entry] = item`) overwrites the instance-level PRIVATE slot of
retval with the static sub-region: the normalized result maps PRIVATE to
the static object with member "b", not to the instance object with
member "a". -/
theorem fixupData_static_storage_cex :
    fixupData [(PRIVATE, .vObj [(.str "a", .vNum 1)]),
               (STATIC, .vObj [(PRIVATE, .vObj [(.str "b", .vNum 2)])])] =
      .ok [(STATIC, .vObj [(PRIVATE, .vObj [(.str "b", .vNum 2)]), (PROTECTED, .vUndefined),
              (PUBLIC, .vUndefined)]),
           (CLASSNAME, .vStr "ClassBase"), (INHERITMODE, .vUndefined),
           (PRIVATE, .vObj [(.str "b", .vNum 2)]), (PROTECTED, .vUndefined), (PUBLIC, .vUndefined)] ∧
    getOwnD [(STATIC, JSVal.vObj [(PRIVATE, JSVal.vObj [(.str "b", JSVal.vNum 2)]),
                (PROTECTED, JSVal.vUndefined), (PUBLIC, JSVal.vUndefined)]),
             (CLASSNAME, JSVal.vStr "ClassBase"), (INHERITMODE, JSVal.vUndefined),
             (PRIVATE, JSVal.vObj [(.str "b", JSVal.vNum 2)]), (PROTECTED, JSVal.vUndefined),
             (PUBLIC, JSVal.vUndefined)] PRIVATE = .vObj [(.str "b", .vNum 2)] := ⟨rfl, rfl⟩

/-- Claim C6 (corrected).  Amended statement: static members are indeed
duplicate-checked against a set scoped separately from the instance-level
set — a member name occurring once in an instance region and once in a
STATIC sub-region raises no duplicate error (first conjunct), while a name
duplicated across two sub-regions inside STATIC raises the duplicate-name
SyntaxError (second conjunct) — but a present, validated static sub-region
is stored at the instance level of the normalized definition (line 251
writes retval[entry], overwriting the instance slot), while only absent
static sub-regions are recorded as undefined under the STATIC key
(line 254), as the explicit normalized result of the third conjunct
shows. -/
theorem fixupData_static_scoping_amended :
    (∀ (s : String) (v w : JSVal),
      exceptOk (fixupData [(PUBLIC, .vObj [(.str s, v)]),
        (STATIC, .vObj [(PUBLIC, .vObj [(.str s, w)])])]) = true) ∧
    (∀ (s : String) (v w : JSVal),
      fixupData [(STATIC, .vObj [(PRIVATE, .vObj [(.str s, v)]),
        (PUBLIC, .vObj [(.str s, w)])])] = .error (.dupKey (.str s))) ∧
    (∀ (s t : String) (v w : JSVal),
      fixupData [(PRIVATE, .vObj [(.str s, v)]),
        (STATIC, .vObj [(PRIVATE, .vObj [(.str t, w)])])] =
        .ok [(STATIC, .vObj [(PRIVATE, .vObj [(.str t, w)]), (PROTECTED, .vUndefined),
                (PUBLIC, .vUndefined)]),
             (CLASSNAME, .vStr "ClassBase"), (INHERITMODE, .vUndefined),
             (PRIVATE, .vObj [(.str t, w)]), (PROTECTED, .vUndefined), (PUBLIC, .vUndefined)]) := by
  refine ⟨fun s v w => ?_, fun s v w => ?_, fun s t v w => ?_⟩
  · simp [fixupData, instancePhase, staticPhase, processRegion, processStaticRegion,
      checkDup, getAllKeys, jsOwnKeyList, objKeys, stringKeys, getOwn, getOwnD, hasOwn,
      setProp, setStaticSub, truthy, typeofObject, isObj, exceptOk, inheritModeAllowed,
      hasOwnVal, getPropVal, isStrKey, STATIC, PRIVATE, PROTECTED, PUBLIC, CLASSNAME,
      INHERITMODE]
  · simp [fixupData, instancePhase, staticPhase, processRegion, processStaticRegion,
      checkDup, getAllKeys, jsOwnKeyList, objKeys, stringKeys, getOwn, getOwnD, hasOwn,
      setProp, setStaticSub, truthy, typeofObject, isObj, inheritModeAllowed,
      hasOwnVal, getPropVal, isStrKey, STATIC, PRIVATE, PROTECTED, PUBLIC, CLASSNAME,
      INHERITMODE]
  · simp [fixupData, instancePhase, staticPhase, processRegion, processStaticRegion,
      checkDup, getAllKeys, jsOwnKeyList, objKeys, stringKeys, getOwn, getOwnD, hasOwn,
      setProp, setStaticSub, truthy, typeofObject, isObj, inheritModeAllowed,
      hasOwnVal, getPropVal, isStrKey, STATIC, PRIVATE, PROTECTED, PUBLIC, CLASSNAME,
      INHERITMODE]

/-- Claim C7 (code_bug).  The claim (and the doc comments of init and
isPlaceHolder) say isPlaceHolder returns true for the exact marker init
returns, and false for structurally similar unregistered objects.  The
code can never accept its own marker: init stores the object
`{value: undefined}` under the PLACEHOLDER key (lines 586-588), so the
check `val[PLACEHOLDER] === void 0` of line 608 is false, and line 607
consults ClassicM.PLACEHOLDER — a property never defined on ClassicM — so
hasOwnProperty is applied to undefined, which coerces to the string key
"undefined" that the marker does not own.  The marker does satisfy the
frozen/zero-names/one-symbol shape (middle conjuncts), and unregistered
objects are rejected as claimed (last conjunct), yet
isPlaceHolder(init(fn)) evaluates to false. -/
theorem isPlaceHolder_rejects_genuine_marker :
    initRun (.vFun 7) = .ok initMarker ∧
    isPlaceHolder initMarker = false ∧
    hasOwn initMarker.props (toPropertyKey classicMPlaceholderProp) = false ∧
    isUndefinedVal (getOwnD initMarker.props PLACEHOLDER_KEY) = false ∧
    initMarker.frozen = true ∧
    strNameCount initMarker.props = 0 ∧
    symKeyCount initMarker.props = 1 ∧
    initMarker.inInitFns = true ∧
    (∀ o : ObjRef, o.inInitFns = false → isPlaceHolder o = false) := by
  refine ⟨rfl, rfl, rfl, rfl, rfl, rfl, rfl, rfl, ?_⟩
  intro o h
  simp [isPlaceHolder, h]

/-- Witness for claim C7: an unregistered frozen empty object is not a
placeholder, by direct application of the theorem. -/
theorem isPlaceHolder_rejects_genuine_marker_witness :
    (ObjRef.mk [] true false).inInitFns = false ∧
    isPlaceHolder (ObjRef.mk [] true false) = false :=
  ⟨rfl, isPlaceHolder_rejects_genuine_marker.2.2.2.2.2.2.2.2 (ObjRef.mk [] true false) rfl⟩

/-- Claim C8 (code_bug).  The claim says that for valid arguments raising
no definition error, ClassicM returns a constructor function, with the
base defaulting to Object.  The argument normalisation does default the
base to Object (third and fourth conjuncts), but no invocation of ClassicM
can ever return a constructor: every path either throws one of the
argument or definition errors, or reaches line 431 where
`let newClass = eval(` backtick `()` backtick `)` throws a SyntaxError
("()" is not a valid program) — and the function body contains no return
statement anyway.  On the well-formed empty definition the result is
exactly that SyntaxError (second conjunct). -/
theorem classicM_never_returns_constructor :
    (∀ args : List JSVal, exceptOk (ClassicMRun args) = false) ∧
    ClassicMRun [JSVal.vObj []] = .error .evalSynErr ∧
    ClassicMArgs [] = .ok (OBJECT, JSVal.vObj []) ∧
    ClassicMArgs [JSVal.vObj [(PRIVATE, JSVal.vObj [])]] =
      .ok (OBJECT, JSVal.vObj [(PRIVATE, JSVal.vObj [])]) := by
  refine ⟨fun args => ?_, by rfl, by rfl, by rfl⟩
  unfold ClassicMRun
  split
  · rfl
  · split
    · rfl
    · split
      · rfl
      · rfl

/-- Claim C9 (code_bug).  The claim says a base whose recorded inheritance
mode is FINAL is rejected with an inheritance error.  The file never calls
classDefs.set, so no class is ever recorded and the membership test of
line 420 is false for every base (first conjunct); consequently the
TypeError("Cannot extend a final class") of line 421 is dead code and
ClassicM can never fail with the inheritance error, whatever the arguments
(second conjunct).  Even were the map populated, the guard compares
against `Classic.FINAL` and reads `ClassicM.INHERITMODE`, both of which
evaluate undeclared identifiers (Classic, useStrings) and would throw
ReferenceErrors instead. -/
theorem classicM_final_guard_dead :
    (∀ base : JSVal, classDefsHas base = false) ∧
    (∀ args : List JSVal, errIsCannotExtendFinal (ClassicMRun args) = false) := by
  refine ⟨fun _ => rfl, fun args => ?_⟩
  unfold ClassicMRun
  split
  · rename_i e heq
    exact ClassicMArgs_err args e heq
  · rename_i p base data
    split
    · rename_i e heq
      exact fixupData_err_class _ e heq
    · split
      · rfl
      · rfl

/-- Counterexample for claim C10.  The claim says loading the module
always throws a TypeError because of the `new Symbol` calls of
lines 83-85.  Loading in fact fails earlier, at parse time, with a
SyntaxError: the body of ClassicM declares newClass both with let
(line 431) and as a function declaration (line 432), an ECMAScript early
error, so no top-level statement — line 83 included — ever runs, and the
error the loader reports is not a TypeError. -/
theorem moduleLoad_not_typeError_cex :
    loadModule = .error (.dupBinding "newClass") ∧ loadErrKindIsTypeErr = false := ⟨rfl, rfl⟩

/-- Claim C10 (corrected).  Amended statement: loading the module always
fails before any public API becomes available, but with the early
SyntaxError for the duplicate newClass binding raised at parse time, so
the top level never begins executing; had the file parsed, evaluation
would have stopped at line 83 with the TypeError from `new Symbol`
(Symbol is not a constructor).  Either way module.exports — assigned only
inside the body of ClassicM at line 631 — is never reached and no API is
exported. -/
theorem moduleLoad_amended :
    loadModule = .error (.dupBinding "newClass") ∧
    (JSErr.dupBinding "newClass").kind = ErrKind.synErr ∧
    topLevelEval = .error (.notAConstructor "Symbol") ∧
    (JSErr.notAConstructor "Symbol").kind = ErrKind.typeErr ∧
    exceptOk loadModule = false := ⟨rfl, rfl, rfl, rfl, rfl⟩
